import Mathlib

/-!
Verification of the Thakii PDF Engine health server (src/health_server.py).

The server code is embedded shallowly.  All interaction with the Python
runtime that the handler observes — whether each import statement succeeds,
which version attribute a resolved module exposes, whether the uptime file
read pipeline succeeds, and the timestamp taken at response construction —
is collected in an explicit environment record `Env`.  The handler functions
are translated statement by statement from the source; Python exceptions are
modelled by the `Except` monad over `PyError`, which records whether the
raised exception is an ImportError (the only class the dependency probe and
the entry-point primary try block catch) together with its str() message.
-/

set_option autoImplicit false

namespace ThakiiHealth

/-- A Python exception value as the handler can observe it: whether the
exception is an ImportError (or a subclass such as ModuleNotFoundError),
and its str() message. -/
structure PyError where
  isImportError : Bool
  msg : String
deriving DecidableEq, Repr

/-- Outcome of a Python import statement: either the module resolved, carrying
the version attribute it exposes (if any), or the import raised an exception.
A module whose top level raises a non-ImportError exception is modelled by
`failed` with `isImportError = false`. -/
inductive ImportOutcome where
  | resolved (version : Option String)
  | failed (e : PyError)
deriving DecidableEq, Repr

/-- The ambient runtime state that one /health request of health_server.py
reads: the two entry-point import attempts (primary, and the sys.path
fallback), the three dependency imports, the uptime read pipeline (the
formatted string when the open/read/parse/format chain succeeds, none when
any step raises, matching the bare except in get_uptime), and the
datetime.utcnow().isoformat() string taken at response construction. -/
structure Env where
  primaryImport : ImportOutcome
  fallbackImport : ImportOutcome
  cv2 : ImportOutcome
  fpdf : ImportOutcome
  numpy : ImportOutcome
  uptimeRead : Option String
  timestamp : String
deriving DecidableEq, Repr

/-- A JSON value as built by the handler: json.dumps of nested dicts whose
leaves are strings. -/
inductive J where
  | str (s : String)
  | obj (fields : List (String × J))

/-- Dict lookup on the field list of a JSON object. -/
def J.lookupField : List (String × J) → String → Option J
  | [], _ => none
  | (k2, v) :: rest, k => if k2 = k then some v else J.lookupField rest k

/-- An HTTP response body: a JSON document, or the plain-text body of an
error page (no JSON envelope). -/
inductive Body where
  | json (j : J)
  | text (s : String)

/-- Whether a response body is a JSON envelope. -/
def Body.isJsonBody : Body → Bool
  | .json _ => true
  | .text _ => false

/-- An HTTP response: status code and body. -/
structure Response where
  status : Nat
  body : Body

/-- Top-level field lookup in a JSON response body. -/
def Response.bodyField (r : Response) (k : String) : Option J :=
  match r.body with
  | .json (J.obj fs) => J.lookupField fs k
  | _ => none

/-- The top-level field names of a JSON response body, in order. -/
def Response.fieldNames (r : Response) : List String :=
  match r.body with
  | .json (J.obj fs) => fs.map Prod.fst
  | _ => []

/-- The checks.dependencies mapping of a response, when present. -/
def Response.depsList (r : Response) : Option (List (String × J)) :=
  match r.bodyField "checks" with
  | some (J.obj cfs) =>
    match J.lookupField cfs "dependencies" with
    | some (J.obj ds) => some ds
    | _ => none
  | _ => none

/-- The key list of checks.dependencies, when present. -/
def Response.depKeys (r : Response) : Option (List String) :=
  (r.depsList).map (fun l => l.map Prod.fst)

/-- The entry recorded for one dependency name in checks.dependencies. -/
def Response.depEntry (r : Response) (k : String) : Option J :=
  match r.depsList with
  | some l => J.lookupField l k
  | none => none

/-- The checks.application_import value of a response, when present. -/
def Response.appImportField (r : Response) : Option J :=
  match r.bodyField "checks" with
  | some (J.obj cfs) => J.lookupField cfs "application_import"
  | _ => none

/-- Entry-point resolution at the top of send_health_response: the statement
from src.main import CommandLineArgRunner inside try/except ImportError,
and on ImportError the sys.path extension followed by the same import again.
A non-ImportError exception from the primary import is not caught by the
inner except and propagates; any exception from the fallback import
propagates. -/
def resolveMain (env : Env) : Except PyError Unit :=
  match env.primaryImport with
  | .resolved _ => .ok ()
  | .failed e =>
    if e.isImportError then
      match env.fallbackImport with
      | .resolved _ => .ok ()
      | .failed e2 => .error e2
    else .error e

/-- One try block of check_dependencies for cv2 or numpy: on resolution read
the version attribute of the module (reading a module without that attribute
raises AttributeError, which except ImportError does not catch); on
ImportError record the literal missing value; a non-ImportError exception
from the import propagates. -/
def probeVersioned (name : String) (o : ImportOutcome) : Except PyError String :=
  match o with
  | .resolved (some v) => .ok v
  | .resolved none =>
      .error ⟨false, "AttributeError: module " ++ name ++ " has no attribute __version__"⟩
  | .failed e => if e.isImportError then .ok "missing" else .error e

/-- The fpdf try block of check_dependencies: on resolution record the
literal available value (the source never reads a version attribute of
fpdf); on ImportError record the literal missing value; a non-ImportError
exception propagates. -/
def probeFpdf (o : ImportOutcome) : Except PyError String :=
  match o with
  | .resolved _ => .ok "available"
  | .failed e => if e.isImportError then .ok "missing" else .error e

/-- check_dependencies: the three sequential try blocks, building the
dependencies dict in insertion order opencv, fpdf2, numpy.  An uncaught
exception in any block propagates and discards the dict. -/
def check_dependencies (env : Env) : Except PyError (List (String × String)) :=
  match probeVersioned "cv2" env.cv2 with
  | .error e => .error e
  | .ok opencv =>
    match probeFpdf env.fpdf with
    | .error e => .error e
    | .ok fpdf2 =>
      match probeVersioned "numpy" env.numpy with
      | .error e => .error e
      | .ok numpy2 => .ok [("opencv", opencv), ("fpdf2", fpdf2), ("numpy", numpy2)]

/-- get_uptime: opens /proc/uptime, parses the first number and formats it;
that operating-system pipeline is abstracted as the environment supplying
the formatted string when it succeeds; the bare except clause turns any
failure into the literal unknown value. -/
def get_uptime (env : Env) : String :=
  match env.uptimeRead with
  | some s => s
  | none => "unknown"

/-- The health_data dict of send_health_response, given the dependencies
dict the probe returned. -/
def healthBody (env : Env) (deps : List (String × String)) : J :=
  J.obj [("status", J.str "healthy"),
         ("service", J.str "thakii-pdf-engine"),
         ("timestamp", J.str (env.timestamp ++ "Z")),
         ("version", J.str "1.0.0"),
         ("uptime", J.str (get_uptime env)),
         ("checks", J.obj [("application_import", J.str "ok"),
                           ("dependencies",
                            J.obj (deps.map (fun p => (p.1, J.str p.2))))])]

/-- The error_data dict of the except Exception branch of
send_health_response: status, service, timestamp and the str() of the
caught exception. -/
def errorBody (env : Env) (e : PyError) : J :=
  J.obj [("status", J.str "unhealthy"),
         ("service", J.str "thakii-pdf-engine"),
         ("timestamp", J.str (env.timestamp ++ "Z")),
         ("error", J.str e.msg)]

/-- send_health_response: the outer try builds health_data — first the
entry-point import, then the dict literal whose construction calls get_uptime
(which never raises) and check_dependencies — and replies 200; the except
Exception branch catches any exception raised on the way and replies 503
with error_data. -/
def send_health_response (env : Env) : Response :=
  match resolveMain env with
  | .error e => ⟨503, .json (errorBody env e)⟩
  | .ok _ =>
    match check_dependencies env with
    | .error e => ⟨503, .json (errorBody env e)⟩
    | .ok deps => ⟨200, .json (healthBody env deps)⟩

/-- send_info_response: the static info_data dict, always sent with 200. -/
def send_info_response (env : Env) : Response :=
  ⟨200, .json (J.obj
    [("service", J.str "Thakii PDF Engine"),
     ("description", J.str "Video-to-PDF conversion service"),
     ("version", J.str "1.0.0"),
     ("endpoints", J.obj [("/health", J.str "Health check endpoint"),
                          ("/", J.str "Service information")]),
     ("timestamp", J.str (env.timestamp ++ "Z"))])⟩

/-- do_GET: exact-match routing on the request path.  The body written by
the framework helper send_error(404, "Not Found") is library code outside
this repository; per the spec it is a plain-text Not Found body with no
JSON envelope. -/
def do_GET (env : Env) (path : String) : Response :=
  if path = "/health" then send_health_response env
  else if path = "/" then send_info_response env
  else ⟨404, .text "Not Found"⟩

/-- Modelled from the spec: the HTTP framework method dispatch is library
code outside this repository (the handler class defines only do_GET); per
the spec, a request with any non-GET method receives the same plain-text
404 Not Found response as an unknown path, and GET requests are routed
through do_GET. -/
def handle_request (env : Env) (method path : String) : Response :=
  if method = "GET" then do_GET env path
  else ⟨404, .text "Not Found"⟩

/-- Whether an Except value is a normal return. -/
def exceptOk {α : Type} : Except PyError α → Bool
  | .ok _ => true
  | .error _ => false

/-- An import outcome the cv2/numpy try blocks fully absorb: the module
resolved and exposes a version attribute, or the import raised an
ImportError. -/
def benignVersioned : ImportOutcome → Bool
  | .resolved (some _) => true
  | .resolved none => false
  | .failed e => e.isImportError

/-- An import outcome the fpdf try block fully absorbs: the module resolved,
or the import raised an ImportError. -/
def benignAny : ImportOutcome → Bool
  | .resolved _ => true
  | .failed e => e.isImportError

/-- Environment in which the entry point and all three dependencies resolve;
fpdf exposes a version attribute, as the real fpdf2 library does. -/
def envAllGood : Env :=
  { primaryImport := .resolved none,
    fallbackImport := .resolved none,
    cv2 := .resolved (some "4.8.1"),
    fpdf := .resolved (some "2.7.9"),
    numpy := .resolved (some "1.26.4"),
    uptimeRead := some "12345.67 seconds",
    timestamp := "2026-10-12T12:00:00.000000" }

/-- The same capability state as envAllGood, observed a moment later: only
the uptime reading and the timestamp differ. -/
def envAllGoodLater : Env :=
  { envAllGood with uptimeRead := none, timestamp := "2026-10-12T12:00:05.000000" }

/-- Environment in which both entry-point import attempts raise
ModuleNotFoundError while every dependency resolves. -/
def envEntryBroken : Env :=
  { primaryImport := .failed ⟨true, "No module named src"⟩,
    fallbackImport := .failed ⟨true, "No module named src"⟩,
    cv2 := .resolved (some "4.8.1"),
    fpdf := .resolved (some "2.7.9"),
    numpy := .resolved (some "1.26.4"),
    uptimeRead := some "12345.67 seconds",
    timestamp := "2026-10-12T12:00:00.000000" }

/-- Environment in which the entry point resolves but the cv2 module raises
a non-ImportError exception while loading (a broken native install). -/
def envCv2Fault : Env :=
  { primaryImport := .resolved none,
    fallbackImport := .resolved none,
    cv2 := .failed ⟨false, "OSError: libGL.so.1: cannot open shared object file"⟩,
    fpdf := .resolved (some "2.7.9"),
    numpy := .resolved (some "1.26.4"),
    uptimeRead := some "12345.67 seconds",
    timestamp := "2026-10-12T12:00:00.000000" }

/-- Environment in which the entry point resolves but the numpy module raises
a non-ImportError exception while loading. -/
def envNumpyFault : Env :=
  { primaryImport := .resolved none,
    fallbackImport := .resolved none,
    cv2 := .resolved (some "4.8.1"),
    fpdf := .resolved (some "2.7.9"),
    numpy := .failed ⟨false, "RuntimeError: module compiled against incompatible ABI"⟩,
    uptimeRead := some "12345.67 seconds",
    timestamp := "2026-10-12T12:00:00.000000" }

/-- Environment in which the entry point resolves but the fpdf module raises
a non-ImportError exception while loading. -/
def envFpdfFault : Env :=
  { primaryImport := .resolved none,
    fallbackImport := .resolved none,
    cv2 := .resolved (some "4.8.1"),
    fpdf := .failed ⟨false, "ValueError: bad marshal data"⟩,
    numpy := .resolved (some "1.26.4"),
    uptimeRead := some "12345.67 seconds",
    timestamp := "2026-10-12T12:00:00.000000" }

/-- Environment in which the entry point resolves (via the primary import)
while every dependency import raises ModuleNotFoundError. -/
def envAllMissing : Env :=
  { primaryImport := .resolved none,
    fallbackImport := .resolved none,
    cv2 := .failed ⟨true, "No module named cv2"⟩,
    fpdf := .failed ⟨true, "No module named fpdf"⟩,
    numpy := .failed ⟨true, "No module named numpy"⟩,
    uptimeRead := none,
    timestamp := "2026-10-12T12:00:00.000000" }

/-- Routing: a GET request for /health is handled by send_health_response. -/
theorem do_GET_health (env : Env) : do_GET env "/health" = send_health_response env := rfl

/-- When entry-point resolution raises, the handler replies 503 with the
error_data dict. -/
theorem send_health_error_of_resolveMain (env : Env) (e : PyError)
    (h : resolveMain env = .error e) :
    send_health_response env = ⟨503, .json (errorBody env e)⟩ := by
  unfold send_health_response
  rw [h]

/-- When both entry-point import attempts fail, resolution raises: the
fallback exception when the primary raised an ImportError, otherwise the
primary exception itself. -/
theorem resolveMain_both_failed (env : Env) (e1 e2 : PyError)
    (hp : env.primaryImport = .failed e1) (hf : env.fallbackImport = .failed e2) :
    resolveMain env = .error (if e1.isImportError then e2 else e1) := by
  unfold resolveMain
  rw [hp]
  cases hi : e1.isImportError <;> simp [hi, hf]

/-- C1: for every GET request to /health in which both the primary and the
fallback entry-point imports fail (with non-empty exception messages, as
the CPython machinery produces), the response is 503, its body has exactly the
ErrorReport fields, status is unhealthy, and the error field is present and
non-empty. -/
theorem c1_entry_unresolvable_503 (env : Env) (e1 e2 : PyError)
    (hp : env.primaryImport = .failed e1) (hf : env.fallbackImport = .failed e2)
    (h1 : e1.msg ≠ "") (h2 : e2.msg ≠ "") :
    (do_GET env "/health").status = 503 ∧
    (do_GET env "/health").fieldNames = ["status", "service", "timestamp", "error"] ∧
    (do_GET env "/health").bodyField "status" = some (J.str "unhealthy") ∧
    ∃ m, (do_GET env "/health").bodyField "error" = some (J.str m) ∧ m ≠ "" := by
  have hsend : send_health_response env =
      ⟨503, .json (errorBody env (if e1.isImportError then e2 else e1))⟩ :=
    send_health_error_of_resolveMain env _ (resolveMain_both_failed env e1 e2 hp hf)
  rw [do_GET_health, hsend]
  refine ⟨rfl, rfl, rfl, (if e1.isImportError then e2 else e1).msg, rfl, ?_⟩
  cases hi : e1.isImportError <;> simp [hi, h1, h2]

/-- C1 witness: the conclusion of c1_entry_unresolvable_503 at the concrete
environment envEntryBroken. -/
theorem c1_witness :
    envEntryBroken.primaryImport = .failed ⟨true, "No module named src"⟩ ∧
    envEntryBroken.fallbackImport = .failed ⟨true, "No module named src"⟩ ∧
    ((do_GET envEntryBroken "/health").status = 503 ∧
     (do_GET envEntryBroken "/health").fieldNames = ["status", "service", "timestamp", "error"] ∧
     (do_GET envEntryBroken "/health").bodyField "status" = some (J.str "unhealthy") ∧
     ∃ m, (do_GET envEntryBroken "/health").bodyField "error" = some (J.str m) ∧ m ≠ "") :=
  ⟨rfl, rfl,
   c1_entry_unresolvable_503 envEntryBroken ⟨true, "No module named src"⟩
     ⟨true, "No module named src"⟩ rfl rfl (by decide) (by decide)⟩

/-- C2 counterexample: with the entry point resolvable but the cv2 import
raising a non-ImportError exception, /health responds 503 although
entry-point resolution succeeds, so 503 does not hold only when entry-point
resolution fails. -/
theorem c2_counterexample :
    resolveMain envCv2Fault = .ok () ∧ (do_GET envCv2Fault "/health").status = 503 :=
  ⟨rfl, rfl⟩

/-- C2 amended: /health responds 503 exactly when entry-point resolution
raises or the dependency probe raises (a dependency import failing with a
non-ImportError exception, or a resolved cv2/numpy module without a version
attribute); the uptime reading never affects the status. -/
theorem c2_amended_503_iff (env : Env) :
    ((do_GET env "/health").status = 503 ↔
      (exceptOk (resolveMain env) && exceptOk (check_dependencies env)) = false) ∧
    (send_health_response { env with uptimeRead := none }).status =
      (send_health_response env).status := by
  rw [do_GET_health]
  constructor
  · cases hr : resolveMain env with
    | error e => simp [send_health_response, hr, exceptOk]
    | ok u =>
      cases hc : check_dependencies env with
      | error e => simp [send_health_response, hr, hc, exceptOk]
      | ok deps => simp [send_health_response, hr, hc, exceptOk]
  · cases hr : resolveMain env with
    | error e =>
      have hr2 : resolveMain { env with uptimeRead := none } = .error e := hr
      simp [send_health_response, hr, hr2]
    | ok u =>
      have hr2 : resolveMain { env with uptimeRead := none } = .ok u := hr
      cases hc : check_dependencies env with
      | error e =>
        have hc2 : check_dependencies { env with uptimeRead := none } = .error e := hc
        simp [send_health_response, hr, hr2, hc, hc2]
      | ok deps =>
        have hc2 : check_dependencies { env with uptimeRead := none } = .ok deps := hc
        simp [send_health_response, hr, hr2, hc, hc2]

/-- C2 witness: at the concrete all-resolvable environment, the iff of
c2_amended_503_iff rules out a 503 response. -/
theorem c2_witness : ¬ (do_GET envAllGood "/health").status = 503 := fun h =>
  absurd ((c2_amended_503_iff envAllGood).1.mp h) (by decide)

/-- A benign cv2/numpy outcome makes its try block return normally. -/
theorem probeVersioned_ok_of_benign (name : String) (o : ImportOutcome)
    (h : benignVersioned o = true) : ∃ a, probeVersioned name o = .ok a := by
  cases o with
  | resolved v =>
    cases v with
    | some s => exact ⟨s, rfl⟩
    | none => simp [benignVersioned] at h
  | failed e =>
    simp [benignVersioned] at h
    exact ⟨"missing", by simp [probeVersioned, h]⟩

/-- A benign fpdf outcome makes its try block return normally. -/
theorem probeAny_ok_of_benign (o : ImportOutcome) (h : benignAny o = true) :
    ∃ a, probeFpdf o = .ok a := by
  cases o with
  | resolved v => exact ⟨"available", rfl⟩
  | failed e =>
    simp [benignAny] at h
    exact ⟨"missing", by simp [probeFpdf, h]⟩

/-- With all three import outcomes benign, check_dependencies returns
normally with one entry per configured dependency, each entry being exactly
what the corresponding try block computes on its own outcome. -/
theorem check_dependencies_ok_of_benign (env : Env)
    (h1 : benignVersioned env.cv2 = true) (h2 : benignAny env.fpdf = true)
    (h3 : benignVersioned env.numpy = true) :
    ∃ a b c, probeVersioned "cv2" env.cv2 = .ok a ∧ probeFpdf env.fpdf = .ok b ∧
      probeVersioned "numpy" env.numpy = .ok c ∧
      check_dependencies env = .ok [("opencv", a), ("fpdf2", b), ("numpy", c)] := by
  obtain ⟨a, ha⟩ := probeVersioned_ok_of_benign "cv2" env.cv2 h1
  obtain ⟨b, hb⟩ := probeAny_ok_of_benign env.fpdf h2
  obtain ⟨c, hc⟩ := probeVersioned_ok_of_benign "numpy" env.numpy h3
  refine ⟨a, b, c, ha, hb, hc, ?_⟩
  unfold check_dependencies
  rw [ha, hb, hc]

/-- C3 counterexample: a dependency import raising a non-ImportError
exception escapes check_dependencies, so the Dependency Probe does not
return normally for every fault raised while resolving a dependency. -/
theorem c3_counterexample :
    check_dependencies envCv2Fault =
      .error ⟨false, "OSError: libGL.so.1: cannot open shared object file"⟩ := rfl

/-- C3 amended: when every unresolvable dependency fails with an ImportError
and every resolved cv2/numpy exposes a version attribute, check_dependencies
returns normally, and each dependency is probed and recorded independently
of the outcomes of the others. -/
theorem c3_amended_no_raise (env : Env)
    (h1 : benignVersioned env.cv2 = true) (h2 : benignAny env.fpdf = true)
    (h3 : benignVersioned env.numpy = true) :
    ∃ a b c, probeVersioned "cv2" env.cv2 = .ok a ∧ probeFpdf env.fpdf = .ok b ∧
      probeVersioned "numpy" env.numpy = .ok c ∧
      check_dependencies env = .ok [("opencv", a), ("fpdf2", b), ("numpy", c)] :=
  check_dependencies_ok_of_benign env h1 h2 h3

/-- C3 witness: the amended statement at the concrete environment with all
three dependency imports raising ModuleNotFoundError. -/
theorem c3_witness :
    benignVersioned envAllMissing.cv2 = true ∧ benignAny envAllMissing.fpdf = true ∧
    benignVersioned envAllMissing.numpy = true ∧
    (∃ a b c, probeVersioned "cv2" envAllMissing.cv2 = .ok a ∧
      probeFpdf envAllMissing.fpdf = .ok b ∧
      probeVersioned "numpy" envAllMissing.numpy = .ok c ∧
      check_dependencies envAllMissing = .ok [("opencv", a), ("fpdf2", b), ("numpy", c)]) :=
  ⟨rfl, rfl, rfl, c3_amended_no_raise envAllMissing rfl rfl rfl⟩

/-- C4 counterexample: with the entry point resolvable but the numpy import
raising a non-ImportError exception, /health responds 503 rather than 200,
so resolving the entry point alone does not guarantee a 200 response with
the three dependency keys. -/
theorem c4_counterexample :
    resolveMain envNumpyFault = .ok () ∧ (do_GET envNumpyFault "/health").status = 503 :=
  ⟨rfl, rfl⟩

/-- C4 amended: when the entry point resolves and every dependency outcome is
benign (failures are ImportError-class, resolved cv2/numpy expose versions),
/health responds 200 and checks.dependencies holds exactly the keys opencv,
fpdf2, numpy, in that order — never more, never fewer. -/
theorem c4_amended_deps_keys (env : Env) (hm : resolveMain env = .ok ())
    (h1 : benignVersioned env.cv2 = true) (h2 : benignAny env.fpdf = true)
    (h3 : benignVersioned env.numpy = true) :
    (do_GET env "/health").status = 200 ∧
    (do_GET env "/health").depKeys = some ["opencv", "fpdf2", "numpy"] := by
  obtain ⟨a, b, c, ha, hb, hc, hdeps⟩ := check_dependencies_ok_of_benign env h1 h2 h3
  have hresp : send_health_response env =
      ⟨200, .json (healthBody env [("opencv", a), ("fpdf2", b), ("numpy", c)])⟩ := by
    unfold send_health_response
    rw [hm, hdeps]
  rw [do_GET_health, hresp]
  exact ⟨rfl, rfl⟩

/-- C4 witness: the amended statement at the concrete environment where all
dependencies are missing via ImportError. -/
theorem c4_witness :
    resolveMain envAllMissing = .ok () ∧
    ((do_GET envAllMissing "/health").status = 200 ∧
     (do_GET envAllMissing "/health").depKeys = some ["opencv", "fpdf2", "numpy"]) :=
  ⟨rfl, c4_amended_deps_keys envAllMissing rfl rfl rfl rfl⟩

/-- C5 counterexample: the fpdf dependency cannot be resolved (its import
raises a non-ImportError exception), yet its entry is not recorded as
missing — the response is a 503 with no dependencies mapping at all, and the
HTTP status does change from 200. -/
theorem c5_counterexample :
    (∃ e, envFpdfFault.fpdf = ImportOutcome.failed e) ∧
    (do_GET envFpdfFault "/health").status = 503 ∧
    (do_GET envFpdfFault "/health").depEntry "fpdf2" = none :=
  ⟨⟨⟨false, "ValueError: bad marshal data"⟩, rfl⟩, rfl, rfl⟩

/-- C5 amended: when the entry point resolves and every dependency outcome is
benign, each dependency whose import fails (necessarily with an ImportError)
is recorded as the literal missing value, and such failures — even all three
at once — leave the top-level status healthy and the HTTP status 200. -/
theorem c5_amended_missing_absorbed (env : Env) (hm : resolveMain env = .ok ())
    (h1 : benignVersioned env.cv2 = true) (h2 : benignAny env.fpdf = true)
    (h3 : benignVersioned env.numpy = true) :
    (do_GET env "/health").status = 200 ∧
    (do_GET env "/health").bodyField "status" = some (J.str "healthy") ∧
    ((∃ e, env.cv2 = .failed e) →
      (do_GET env "/health").depEntry "opencv" = some (J.str "missing")) ∧
    ((∃ e, env.fpdf = .failed e) →
      (do_GET env "/health").depEntry "fpdf2" = some (J.str "missing")) ∧
    ((∃ e, env.numpy = .failed e) →
      (do_GET env "/health").depEntry "numpy" = some (J.str "missing")) := by
  obtain ⟨a, b, c, ha, hb, hc, hdeps⟩ := check_dependencies_ok_of_benign env h1 h2 h3
  have hresp : send_health_response env =
      ⟨200, .json (healthBody env [("opencv", a), ("fpdf2", b), ("numpy", c)])⟩ := by
    unfold send_health_response
    rw [hm, hdeps]
  refine ⟨by rw [do_GET_health, hresp], by rw [do_GET_health, hresp]; rfl, ?_, ?_, ?_⟩
  · rintro ⟨e, he⟩
    rw [he] at ha h1
    simp [benignVersioned] at h1
    simp [probeVersioned, h1] at ha
    rw [do_GET_health, hresp, ← ha]
    rfl
  · rintro ⟨e, he⟩
    rw [he] at hb h2
    simp [benignAny] at h2
    simp [probeFpdf, h2] at hb
    rw [do_GET_health, hresp, ← hb]
    rfl
  · rintro ⟨e, he⟩
    rw [he] at hc h3
    simp [benignVersioned] at h3
    simp [probeVersioned, h3] at hc
    rw [do_GET_health, hresp, ← hc]
    rfl

/-- C5 witness: the amended statement at the concrete environment where all
three dependency imports raise ModuleNotFoundError. -/
theorem c5_witness :
    resolveMain envAllMissing = .ok () ∧
    ((do_GET envAllMissing "/health").status = 200 ∧
     (do_GET envAllMissing "/health").bodyField "status" = some (J.str "healthy") ∧
     ((∃ e, envAllMissing.cv2 = .failed e) →
       (do_GET envAllMissing "/health").depEntry "opencv" = some (J.str "missing")) ∧
     ((∃ e, envAllMissing.fpdf = .failed e) →
       (do_GET envAllMissing "/health").depEntry "fpdf2" = some (J.str "missing")) ∧
     ((∃ e, envAllMissing.numpy = .failed e) →
       (do_GET envAllMissing "/health").depEntry "numpy" = some (J.str "missing"))) :=
  ⟨rfl, c5_amended_missing_absorbed envAllMissing rfl rfl rfl rfl⟩

/-- C6 counterexample: the fpdf module resolves and exposes the version
attribute 2.7.9, yet check_dependencies records the literal available value
for fpdf2 — the version identifier is not recorded, and available is emitted
although the library exposes a version attribute. -/
theorem c6_counterexample :
    envAllGood.fpdf = ImportOutcome.resolved (some "2.7.9") ∧
    check_dependencies envAllGood =
      .ok [("opencv", "4.8.1"), ("fpdf2", "available"), ("numpy", "1.26.4")] :=
  ⟨rfl, rfl⟩

/-- C6 amended: when all three dependencies resolve, cv2 and numpy are
recorded under their version attributes, while fpdf2 is always recorded as
the literal available value, whatever version attribute the fpdf module
exposes (the source never reads one). -/
theorem c6_amended_versions (env : Env) (va vn : String) (vf : Option String)
    (hcv : env.cv2 = .resolved (some va)) (hfp : env.fpdf = .resolved vf)
    (hnp : env.numpy = .resolved (some vn)) :
    check_dependencies env = .ok [("opencv", va), ("fpdf2", "available"), ("numpy", vn)] := by
  unfold check_dependencies
  rw [hcv, hfp, hnp]
  rfl

/-- C6 witness: the amended statement at the concrete all-resolvable
environment. -/
theorem c6_witness :
    envAllGood.cv2 = ImportOutcome.resolved (some "4.8.1") ∧
    envAllGood.numpy = ImportOutcome.resolved (some "1.26.4") ∧
    check_dependencies envAllGood =
      .ok [("opencv", "4.8.1"), ("fpdf2", "available"), ("numpy", "1.26.4")] :=
  ⟨rfl, rfl, c6_amended_versions envAllGood "4.8.1" "1.26.4" (some "2.7.9") rfl rfl rfl⟩

/-- C7: every request whose path is neither /health nor /, and every request
with a non-GET method, receives HTTP 404 with the plain-text Not Found body
and no JSON envelope. -/
theorem c7_unknown_404 (env : Env) (method path : String)
    (h : method ≠ "GET" ∨ (path ≠ "/health" ∧ path ≠ "/")) :
    handle_request env method path = ⟨404, Body.text "Not Found"⟩ ∧
    (handle_request env method path).body.isJsonBody = false := by
  have hr : handle_request env method path = ⟨404, Body.text "Not Found"⟩ := by
    unfold handle_request do_GET
    rcases h with h | ⟨h1, h2⟩
    · rw [if_neg h]
    · by_cases hg : method = "GET"
      · rw [if_pos hg, if_neg h1, if_neg h2]
      · rw [if_neg hg]
  exact ⟨hr, by rw [hr]; rfl⟩

/-- C7 witness: the statement at a concrete non-GET request to /health. -/
theorem c7_witness :
    ("POST" ≠ "GET" ∨ (("/health" : String) ≠ "/health" ∧ ("/health" : String) ≠ "/")) ∧
    (handle_request envAllGood "POST" "/health" = ⟨404, Body.text "Not Found"⟩ ∧
     (handle_request envAllGood "POST" "/health").body.isJsonBody = false) :=
  ⟨Or.inl (by decide),
   c7_unknown_404 envAllGood "POST" "/health" (Or.inl (by decide))⟩

/-- C8: every GET request to / responds 200 with exactly the two endpoint
descriptions, and the response is the same in any two environments that
agree on the timestamp — the handler performs no dependency probing. -/
theorem c8_info_static (e1 e2 : Env) (ht : e1.timestamp = e2.timestamp) :
    (do_GET e1 "/").status = 200 ∧
    (do_GET e1 "/").bodyField "endpoints" =
      some (J.obj [("/health", J.str "Health check endpoint"),
                   ("/", J.str "Service information")]) ∧
    do_GET e1 "/" = do_GET e2 "/" := by
  refine ⟨rfl, rfl, ?_⟩
  show send_info_response e1 = send_info_response e2
  unfold send_info_response
  rw [ht]

/-- C8 witness: the statement applied to the all-resolvable and the
numpy-faulted environments, which share a timestamp. -/
theorem c8_witness :
    envAllGood.timestamp = envNumpyFault.timestamp ∧
    ((do_GET envAllGood "/").status = 200 ∧
     (do_GET envAllGood "/").bodyField "endpoints" =
       some (J.obj [("/health", J.str "Health check endpoint"),
                    ("/", J.str "Service information")]) ∧
     do_GET envAllGood "/" = do_GET envNumpyFault "/") :=
  ⟨rfl, c8_info_static envAllGood envNumpyFault rfl⟩

/-- C9: two GET /health requests whose environments agree on the entry-point
and the three dependency import outcomes yield identical checks content,
whatever their timestamps and uptime readings. -/
theorem c9_idempotent_checks (e1 e2 : Env)
    (hp : e1.primaryImport = e2.primaryImport)
    (hf : e1.fallbackImport = e2.fallbackImport)
    (hcv : e1.cv2 = e2.cv2) (hfp : e1.fpdf = e2.fpdf) (hnp : e1.numpy = e2.numpy) :
    (do_GET e1 "/health").bodyField "checks" = (do_GET e2 "/health").bodyField "checks" := by
  have hr : resolveMain e1 = resolveMain e2 := by
    unfold resolveMain
    rw [hp, hf]
  have hk : check_dependencies e1 = check_dependencies e2 := by
    unfold check_dependencies
    rw [hcv, hfp, hnp]
  rw [do_GET_health, do_GET_health]
  unfold send_health_response
  rw [hr, hk]
  cases hres : resolveMain e2 with
  | error e => rfl
  | ok u =>
    cases hdeps : check_dependencies e2 with
    | error e => rfl
    | ok deps => rfl

/-- C9 witness: the same capability state observed at two different times
(different timestamp and uptime) yields identical checks content. -/
theorem c9_witness :
    (do_GET envAllGood "/health").bodyField "checks" =
      (do_GET envAllGoodLater "/health").bodyField "checks" :=
  c9_idempotent_checks envAllGood envAllGoodLater rfl rfl rfl rfl rfl

/-- C10: in every 200 response of /health, checks.application_import is
exactly ok; no code path emits the value fail for it; and every non-200
response of /health carries exactly the ErrorReport fields status, service,
timestamp, error — no checks, version or uptime field at all. -/
theorem c10_app_import_shape (env : Env) :
    ((do_GET env "/health").status = 200 →
      (do_GET env "/health").appImportField = some (J.str "ok")) ∧
    (do_GET env "/health").appImportField ≠ some (J.str "fail") ∧
    ((do_GET env "/health").status ≠ 200 →
      (do_GET env "/health").fieldNames = ["status", "service", "timestamp", "error"] ∧
      (do_GET env "/health").bodyField "checks" = none ∧
      (do_GET env "/health").bodyField "version" = none ∧
      (do_GET env "/health").bodyField "uptime" = none) := by
  rw [do_GET_health]
  unfold send_health_response
  cases hr : resolveMain env with
  | error e =>
    refine ⟨fun h => absurd h (show (503 : Nat) ≠ 200 by decide), ?_, fun _ => ⟨rfl, rfl, rfl, rfl⟩⟩
    intro h
    exact Option.noConfusion h
  | ok u =>
    cases hc : check_dependencies env with
    | error e =>
      refine ⟨fun h => absurd h (show (503 : Nat) ≠ 200 by decide), ?_, fun _ => ⟨rfl, rfl, rfl, rfl⟩⟩
      intro h
      exact Option.noConfusion h
    | ok deps =>
      refine ⟨fun _ => rfl, ?_, fun h => absurd rfl h⟩
      intro h
      have h2 : some (J.str "ok") = some (J.str "fail") := h
      injection h2 with h3
      injection h3 with h4
      exact absurd h4 (by decide)

/-- C10 witness: the first conjunct of c10_app_import_shape at the concrete
all-resolvable environment, whose /health response has status 200. -/
theorem c10_witness :
    (do_GET envAllGood "/health").appImportField = some (J.str "ok") :=
  (c10_app_import_shape envAllGood).1 rfl

end ThakiiHealth
